import Mathlib

/-!
Shallow embedding of the windowed-rendering / demand-paging / position-restoration
engine of the product-browser repository.

Sources embedded:
- src/constants/index.ts            (PAGINATION, VIRTUALIZATION constants)
- src/api/products.ts               (fetchProducts response handling)
- src/hooks/useProducts.ts          (useInfiniteProducts: getNextPageParam)
- src/hooks/useURLState.ts          (page search parameter read / write)
- src/components/ProductTable/ProductTable.tsx
    (URL restoration effect, URL page sync effect, scroll restore effect,
     infinite scroll effect, drawer scroll memory effect, render structure)

The React host loop is modelled as an explicit event-driven step function on a
state record; each useEffect body becomes a pure function from state to state
plus a list of emitted effects (fetch requests, scroll calls, URL writes).
-/

namespace ProductBrowser

/-- PAGINATION.ITEMS_PER_PAGE from src/constants/index.ts. -/
def ITEMS_PER_PAGE : Nat := 30

/-- VIRTUALIZATION.FETCH_THRESHOLD from src/constants/index.ts. -/
def FETCH_THRESHOLD : Nat := 5

/-- VIRTUALIZATION.URL_RESTORE_MIDDLE_OFFSET from src/constants/index.ts. -/
def URL_RESTORE_MIDDLE_OFFSET : Nat := 15

/-- VIRTUALIZATION.MAX_RESTORATION_ATTEMPTS from src/constants/index.ts
(defined there but never referenced by src/components/ProductTable/ProductTable.tsx). -/
def MAX_RESTORATION_ATTEMPTS : Nat := 10

/-- One domain record from src/api/types.ts. Only the stable numeric id is kept;
the remaining fields (title, price, ...) are presentational and unused by the
control logic under verification. -/
structure Product where
  id : Nat
deriving DecidableEq, Repr

/-- ProductsResponse from src/api/types.ts: one page returned by the source. -/
structure ProductsResponse where
  products : List Product
  total : Nat
  skip : Nat
  limit : Nat
deriving DecidableEq, Repr

/-- An HTTP response as seen by fetchProducts in src/api/products.ts:
the ok flag plus the decoded body. -/
structure HttpResponse where
  ok : Bool
  body : ProductsResponse
deriving DecidableEq, Repr

/-- fetchProducts response handling from src/api/products.ts:
if the response is not ok the promise rejects with the FETCH_PRODUCTS error,
otherwise it resolves with the decoded body. -/
def fetchProductsResult (resp : HttpResponse) : Except String ProductsResponse :=
  if resp.ok then Except.ok resp.body else Except.error "Failed to fetch products"

/-- The component-visible state of ProductTable.tsx plus the React Query
infinite-query state of useProducts.ts, flattened into one record.
pages mirrors data.pages; isInitialFetching models the automatic first-page
query being in flight (React Query isLoading phase); isFetchingNext models
isFetchingNextPage; isRestoring and targetScrollIndex model the two refs
isRestoringFromURLRef and targetScrollIndexRef; urlPage is the page prop
derived from the URL. -/
structure TableState where
  pages : List ProductsResponse
  isInitialFetching : Bool
  isFetchingNext : Bool
  isError : Bool
  isRestoring : Bool
  targetScrollIndex : Option Nat
  urlPage : Nat
deriving DecidableEq, Repr

/-- allProducts from ProductTable.tsx: data.pages flattened in page order. -/
def allProducts (s : TableState) : List Product :=
  List.flatten (s.pages.map ProductsResponse.products)

/-- hasNextPage as derived by React Query from getNextPageParam in
src/hooks/useProducts.ts: loaded = allPages.length * ITEMS_PER_PAGE is compared
against lastPage.total; there is a next page exactly when loaded < total.
Before any page has arrived there is no last page and hence no next page. -/
def hasNextPage (s : TableState) : Bool :=
  match s.pages.getLast? with
  | none => false
  | some lastPage => decide (s.pages.length * ITEMS_PER_PAGE < lastPage.total)

/-- React Query isLoading: the initial query has not yet produced data or an
error. ProductTable renders a spinner (and none of its effects see items)
while this holds. -/
def isLoading (s : TableState) : Bool :=
  s.pages.isEmpty && !s.isError

/-- itemCount from ProductTable.tsx line 50: one extra loader slot is appended
whenever more pages remain. -/
def itemCount (s : TableState) : Nat :=
  if hasNextPage s then (allProducts s).length + 1 else (allProducts s).length

/-- The four top-level render branches of ProductTable.tsx, in source order:
loading spinner, ErrorState with an onRetry affordance, EmptyState, and the
virtualized table. -/
inductive RenderView where
  | loadingSpinner
  | errorRetry
  | emptyState
  | table (count : Nat)
deriving DecidableEq, Repr

/-- The early-return chain at the bottom of ProductTable.tsx:
isLoading, then isError (ErrorState with onRetry = refetch), then the empty
collection, then the table itself. -/
def renderRoot (s : TableState) : RenderView :=
  if isLoading s then RenderView.loadingSpinner
  else if s.isError then RenderView.errorRetry
  else if (allProducts s).length = 0 then RenderView.emptyState
  else RenderView.table (itemCount s)

/-- A rendered virtual row: either the trailing loader row or a product row. -/
inductive Row where
  | loaderRow
  | productRow (p : Product)
deriving DecidableEq, Repr

/-- The per-item render of ProductTable.tsx lines 200-224:
isLoaderRow = virtualItem.index >= allProducts.length decides between the
LoaderRow and a ProductRow indexing allProducts at the virtual index. -/
def renderItem (products : List Product) (idx : Nat) : Row :=
  if h : products.length ≤ idx then Row.loaderRow
  else Row.productRow (products.get ⟨idx, Nat.lt_of_not_le h⟩)

/-- Observable effects emitted by the component: a next-page request
(fetchNextPage), an imperative scrollToIndex call on the virtualizer, and a
URL write through onPageChange / updatePage. -/
inductive Eff where
  | fetchNext
  | scrollTo (index : Nat)
  | setUrlPage (page : Nat)
deriving DecidableEq, Repr

/-- The URL restoration effect of ProductTable.tsx lines 61-85.
Executed verbatim: when not loading and urlPage > 1, if
currentPage < urlPage && hasNextPage && !isFetchingNextPage then on first entry
the restoring flag is set and the target index (urlPage - 1) * 30 + 15 is
recorded (no clamping against the reported total), and fetchNextPage is
invoked. -/
def urlRestorationEffect (s : TableState) : TableState × List Eff :=
  if !(isLoading s) && decide (1 < s.urlPage) then
    let currentPage := s.pages.length
    if decide (currentPage < s.urlPage) && hasNextPage s && !s.isFetchingNext then
      let s1 :=
        if !s.isRestoring then
          { s with isRestoring := true
                   targetScrollIndex :=
                     some ((s.urlPage - 1) * ITEMS_PER_PAGE + URL_RESTORE_MIDDLE_OFFSET) }
        else s
      ({ s1 with isFetchingNext := true }, [Eff.fetchNext])
    else (s, [])
  else (s, [])

/-- The URL page sync effect of ProductTable.tsx lines 88-95: while not
restoring, whenever pages exist and the loaded page count differs from the URL
page, onPageChange writes the loaded page count back to the URL. -/
def urlSyncEffect (s : TableState) : TableState × List Eff :=
  if !s.isRestoring && decide (s.pages.length ≠ 0) && decide (s.pages.length ≠ s.urlPage) then
    ({ s with urlPage := s.pages.length }, [Eff.setUrlPage s.pages.length])
  else (s, [])

/-- The scroll restore effect of ProductTable.tsx lines 98-116: once the target
is set, when allProducts.length >= target and no next-page fetch is in flight,
the refs are cleared and scrollToIndex(target, center) is issued on the next
animation frame. -/
def scrollRestoreEffect (s : TableState) : TableState × List Eff :=
  match s.targetScrollIndex with
  | some target =>
    if decide (target ≤ (allProducts s).length) && !s.isFetchingNext then
      ({ s with targetScrollIndex := none, isRestoring := false }, [Eff.scrollTo target])
    else (s, [])
  | none => (s, [])

/-- The infinite scroll effect of ProductTable.tsx lines 119-140: given the
index of the last rendered virtual item (none while the table is not rendered,
e.g. during the initial load), fetch the next page when
lastItem.index >= allProducts.length - 5 (JavaScript number arithmetic, hence
the comparison over Int) and hasNextPage and not already fetching. -/
def infiniteScrollEffect (s : TableState) (lastIndex : Option Nat) : TableState × List Eff :=
  if isLoading s then (s, [])
  else
    match lastIndex with
    | none => (s, [])
    | some idx =>
      if decide (((allProducts s).length : Int) - (FETCH_THRESHOLD : Int) ≤ (idx : Int))
          && hasNextPage s && !s.isFetchingNext then
        ({ s with isFetchingNext := true }, [Eff.fetchNext])
      else (s, [])

/-- Resolution of an in-flight page fetch: React Query appends the response to
data.pages (the initial query creates the first page) and clears the
corresponding in-flight flag. A resolution with no fetch outstanding is a
no-op. -/
def resolveFetch (s : TableState) (resp : ProductsResponse) : TableState :=
  if s.isInitialFetching then
    { s with pages := [resp], isInitialFetching := false }
  else if s.isFetchingNext then
    { s with pages := s.pages ++ [resp], isFetchingNext := false }
  else s

/-- Rejection of an in-flight page fetch: the failed page is not appended, the
in-flight flag is cleared, and React Query surfaces isError. -/
def rejectFetch (s : TableState) : TableState :=
  if s.isInitialFetching then
    { s with isInitialFetching := false, isError := true }
  else if s.isFetchingNext then
    { s with isFetchingNext := false, isError := true }
  else s

/-- A change of the filter set (query or category). The React Query key
changes, so data for the old key is dropped and a fresh initial query starts;
updateQuery / updateCategory in useURLState.ts delete the page parameter, so
the page prop falls back to 1. The component refs isRestoringFromURLRef and
targetScrollIndexRef are NOT touched by any code on this path. -/
def filterChange (s : TableState) : TableState :=
  { s with pages := [], isInitialFetching := true, isFetchingNext := false,
           isError := false, urlPage := 1 }

/-- Events of the host loop: effect executions scheduled by React, network
completions, and filter-set changes. -/
inductive Event where
  | runRestoration
  | runUrlSync
  | runScrollRestore
  | runInfiniteScroll (lastIndex : Option Nat)
  | fetchSuccess (resp : ProductsResponse)
  | fetchFailure
  | changeFilter
deriving DecidableEq, Repr

/-- One step of the host loop. -/
def step (s : TableState) (e : Event) : TableState × List Eff :=
  match e with
  | Event.runRestoration => urlRestorationEffect s
  | Event.runUrlSync => urlSyncEffect s
  | Event.runScrollRestore => scrollRestoreEffect s
  | Event.runInfiniteScroll lastIndex => infiniteScrollEffect s lastIndex
  | Event.fetchSuccess resp => (resolveFetch s resp, [])
  | Event.fetchFailure => (rejectFetch s, [])
  | Event.changeFilter => (filterChange s, [])

/-- Run a sequence of events, accumulating the emitted effects. -/
def run (s : TableState) : List Event → TableState × List Eff
  | [] => (s, [])
  | e :: es =>
    let (s1, effs1) := step s e
    let (s2, effs2) := run s1 es
    (s2, effs1 ++ effs2)

/-- The state at mount with URL page parameter p: no data yet, the automatic
initial page query in flight, no error, refs at their initial values. -/
def mountState (p : Nat) : TableState :=
  { pages := [], isInitialFetching := true, isFetchingNext := false,
    isError := false, isRestoring := false, targetScrollIndex := none, urlPage := p }

/-- Number of page fetches currently in flight: the initial query plus the
next-page query. -/
def pendingFetches (s : TableState) : Nat :=
  (if s.isInitialFetching then 1 else 0) + (if s.isFetchingNext then 1 else 0)

/-- URLSearchParams.get: the value of the first entry with the given key,
or none when the parameter is absent. -/
def getParam (params : List (String × String)) (name : String) : Option String :=
  (params.find? (fun kv => kv.1 == name)).map Prod.snd

/-- Whitespace skipped by JavaScript parseInt. -/
def isJsSpace (c : Char) : Bool :=
  c = ' ' || c = '\t' || c = '\n' || c = '\r'

/-- Decimal value of a digit string, most significant digit first. -/
def digitsToNat (cs : List Char) : Nat :=
  cs.foldl (fun acc c => acc * 10 + (c.toNat - Char.toNat '0')) 0

/-- The digit-run stage of parseInt: the longest leading run of decimal
digits, or none (NaN) when there is no leading digit. -/
def parseDigits (cs : List Char) : Option Nat :=
  let digits := cs.takeWhile Char.isDigit
  if digits.isEmpty then none else some (digitsToNat digits)

/-- JavaScript parseInt(s, 10): skip leading whitespace, consume one optional
sign, then the longest run of decimal digits; none models NaN. -/
def parseIntJS (s : String) : Option Int :=
  let cs := s.data.dropWhile isJsSpace
  match cs with
  | [] => none
  | c :: rest =>
    if c = '-' then (parseDigits rest).map (fun n => -(n : Int))
    else if c = '+' then (parseDigits rest).map (fun n => (n : Int))
    else (parseDigits cs).map (fun n => (n : Int))

/-- The page read of useURLState.ts: searchParams.get("page") is parsed with
parseInt when present and truthy (the empty string is falsy), and the default
is 1. none models NaN. -/
def pageFromSearchParams (params : List (String × String)) : Option Int :=
  match getParam params "page" with
  | none => some 1
  | some str => if str = "" then some 1 else parseIntJS str

/-- The drawer scroll memory effect of ProductTable.tsx lines 143-155, run on
each productId transition. A non-empty productId (drawer opened) stores the
viewport's current scroll offset (or 0 when the viewport is absent); an empty
productId with a positive saved offset (drawer closed) re-applies exactly the
saved offset on the next animation frame, leaving the saved offset itself
untouched. Returns the new saved offset and the deferred offset write, if
any. -/
def drawerEffect (savedOffset : Nat) (productId : String) (viewportOffset : Option Nat) :
    Nat × Option Nat :=
  if productId ≠ "" then (viewportOffset.getD 0, none)
  else if 0 < savedOffset then (savedOffset, some savedOffset)
  else (savedOffset, none)

/-! ### Concrete fixtures for the spec scenarios -/

/-- count consecutive products with ids starting at start. -/
def mkProducts (start count : Nat) : List Product :=
  (List.range count).map (fun i => { id := start + i })

/-- A source page: count items starting at id start, with the reported total
and offset. -/
def pageResp (start count total skip : Nat) : ProductsResponse :=
  { products := mkProducts start count, total := total, skip := skip,
    limit := ITEMS_PER_PAGE }

/-- Scenario A page loads: a source with total 95 and page size 30 serves
pages of 30, 30, 30 and 5 items. Interleaved with the restoration effect runs
exactly as the host loop schedules them for urlPage = 10. -/
def traceA : List Event :=
  [Event.fetchSuccess (pageResp 0 30 95 0),
   Event.runRestoration,
   Event.fetchSuccess (pageResp 30 30 95 30),
   Event.runRestoration,
   Event.fetchSuccess (pageResp 60 30 95 60),
   Event.runRestoration,
   Event.fetchSuccess (pageResp 90 5 95 90),
   Event.runRestoration,
   Event.runScrollRestore,
   Event.runUrlSync]

/-- The state reached by scenario A (urlPage = 10, source total 95) once the
source is exhausted. -/
def stuckA : TableState := (run (mountState 10) traceA).1

/-- Scenario for the filter-change claim: after the filter changes, the new
filter set reports total 400; its pages load through the normal infinite
scroll path until 300 items are present, then the scroll restore effect
runs. -/
def newFilterEvents : List Event :=
  [Event.fetchSuccess (pageResp 1000 30 400 0),
   Event.runInfiniteScroll (some 29), Event.fetchSuccess (pageResp 1030 30 400 30),
   Event.runInfiniteScroll (some 59), Event.fetchSuccess (pageResp 1060 30 400 60),
   Event.runInfiniteScroll (some 89), Event.fetchSuccess (pageResp 1090 30 400 90),
   Event.runInfiniteScroll (some 119), Event.fetchSuccess (pageResp 1120 30 400 120),
   Event.runInfiniteScroll (some 149), Event.fetchSuccess (pageResp 1150 30 400 150),
   Event.runInfiniteScroll (some 179), Event.fetchSuccess (pageResp 1180 30 400 180),
   Event.runInfiniteScroll (some 209), Event.fetchSuccess (pageResp 1210 30 400 210),
   Event.runInfiniteScroll (some 239), Event.fetchSuccess (pageResp 1240 30 400 240),
   Event.runInfiniteScroll (some 269), Event.fetchSuccess (pageResp 1270 30 400 270),
   Event.runScrollRestore]

/-- The state right after the filter set changes away from scenario A's stuck
restoration. -/
def afterFilterA : TableState := filterChange stuckA

/-- A rendered table state with one loaded page of 30 products out of a
reported total of 95: hasNextPage holds and nothing is in flight. -/
def s30 : TableState :=
  { pages := [pageResp 0 30 95 0], isInitialFetching := false,
    isFetchingNext := false, isError := false, isRestoring := false,
    targetScrollIndex := none, urlPage := 1 }

/-- The state after the first response of scenario B: requestedPage 5, but the
source reports total 0 with an empty page. -/
def sEmptyB : TableState := (run (mountState 5) [Event.fetchSuccess (pageResp 0 0 0 0)]).1

/-- Effects that only write the URL page (neither a fetch nor a scroll). -/
def isUrlWrite : Eff → Bool
  | Eff.setUrlPage _ => true
  | _ => false

/-- Invariant: while the initial query is in flight there is no data and no
next-page fetch in flight. -/
def FetchInv (s : TableState) : Prop :=
  s.isInitialFetching = true → (s.pages = [] ∧ s.isFetchingNext = false)

/-- Invariant holding from scenario B's first (empty, total 0) response on:
the single empty page is all the data there will ever be, nothing is in
flight, and the restoration refs are clear. -/
def EmptyBInv (s : TableState) : Prop :=
  s.pages = [pageResp 0 0 0 0] ∧ s.isInitialFetching = false ∧ s.isFetchingNext = false ∧
  s.isError = false ∧ s.isRestoring = false ∧ s.targetScrollIndex = none

set_option maxRecDepth 8000

/-! ### Helper lemmas -/

theorem hasNextPage_nil (s : TableState) (h : s.pages = []) : hasNextPage s = false := by
  simp [hasNextPage, h]

theorem fetchInv_step (s : TableState) (e : Event) (hs : FetchInv s) : FetchInv (step s e).1 := by
  cases e with
  | runRestoration =>
    simp only [step, urlRestorationEffect]
    split_ifs with h1 h2 h3
    · intro hInit
      obtain ⟨hp, hn⟩ := hs hInit
      rw [hasNextPage_nil s hp] at h2; simp at h2
    · intro hInit
      obtain ⟨hp, hn⟩ := hs hInit
      rw [hasNextPage_nil s hp] at h2; simp at h2
    · exact hs
    · exact hs
  | runUrlSync =>
    simp only [step, urlSyncEffect]
    split_ifs with h1 <;> exact hs
  | runScrollRestore =>
    simp only [step, scrollRestoreEffect]
    split
    · split_ifs <;> exact hs
    · exact hs
  | runInfiniteScroll lastIndex =>
    simp only [step, infiniteScrollEffect]
    split_ifs with h1
    · exact hs
    · split
      · exact hs
      · split_ifs with h2
        · intro hInit
          obtain ⟨hp, hn⟩ := hs hInit
          rw [hasNextPage_nil s hp] at h2; simp at h2
        · exact hs
  | fetchSuccess resp =>
    simp only [step, resolveFetch]
    split_ifs with h1 h2
    · intro h; simp at h
    · intro hInit; exact absurd hInit (by simpa using h1)
    · exact hs
  | fetchFailure =>
    simp only [step, rejectFetch]
    split_ifs with h1 h2
    · intro h; simp at h
    · intro hInit; exact absurd hInit (by simpa using h1)
    · exact hs
  | changeFilter =>
    intro _; exact ⟨rfl, rfl⟩

theorem fetchInv_run (s : TableState) (evs : List Event) (hs : FetchInv s) :
    FetchInv (run s evs).1 := by
  induction evs generalizing s with
  | nil => exact hs
  | cons e es ih =>
    simp only [run]
    exact ih _ (fetchInv_step s e hs)

theorem fetchInv_pending (s : TableState) (hs : FetchInv s) : pendingFetches s ≤ 1 := by
  unfold pendingFetches
  by_cases h : s.isInitialFetching
  · obtain ⟨_, hn⟩ := hs (by simpa using h)
    simp [h, hn]
  · simp [h]
    split_ifs <;> omega

theorem guards_no_fetch_when_fetching (s : TableState) (h : s.isFetchingNext = true) :
    (urlRestorationEffect s).2 = [] ∧ ∀ li, (infiniteScrollEffect s li).2 = [] := by
  constructor
  · simp only [urlRestorationEffect, h]
    split_ifs with h1 h2 <;> simp_all
  · intro li
    simp only [infiniteScrollEffect, h]
    split_ifs with h1
    · rfl
    · rcases li with _ | idx
      · rfl
      · simp only []
        split_ifs with h2 <;> simp_all

theorem isJsSpace_eq_false_of_isDigit (c : Char) (h : c.isDigit = true) : isJsSpace c = false := by
  unfold isJsSpace
  by_cases h1 : c = ' '
  · subst h1; exact absurd h (by decide)
  by_cases h2 : c = '\t'
  · subst h2; exact absurd h (by decide)
  by_cases h3 : c = '\n'
  · subst h3; exact absurd h (by decide)
  by_cases h4 : c = '\r'
  · subst h4; exact absurd h (by decide)
  simp [h1, h2, h3, h4]

theorem ne_dash_of_isDigit (c : Char) (h : c.isDigit = true) : c ≠ '-' := by
  intro he; subst he; exact absurd h (by decide)

theorem ne_plus_of_isDigit (c : Char) (h : c.isDigit = true) : c ≠ '+' := by
  intro he; subst he; exact absurd h (by decide)

theorem parseIntJS_all_digits (s : String) (h1 : s.data ≠ [])
    (h2 : s.data.all Char.isDigit = true) :
    parseIntJS s = some ((digitsToNat s.data : Nat) : Int) := by
  obtain ⟨c, cs, hcs⟩ := List.exists_cons_of_ne_nil h1
  have hall : ∀ x ∈ s.data, x.isDigit = true := by
    intro x hx; exact List.all_eq_true.mp h2 x hx
  have hc : c.isDigit = true := hall c (by rw [hcs]; exact List.mem_cons_self c cs)
  unfold parseIntJS
  rw [hcs, List.dropWhile_cons_of_neg (by simp [isJsSpace_eq_false_of_isDigit c hc])]
  simp only [if_neg (ne_dash_of_isDigit c hc), if_neg (ne_plus_of_isDigit c hc)]
  unfold parseDigits
  rw [List.takeWhile_eq_self_iff.mpr (by rw [← hcs]; exact hall)]
  simp [hcs]

theorem hasNextPage_emptyB (s : TableState) (h : s.pages = [pageResp 0 0 0 0]) :
    hasNextPage s = false := by
  simp [hasNextPage, h, pageResp, ITEMS_PER_PAGE]

theorem emptyBInv_step (s : TableState) (e : Event) (he : e ≠ Event.changeFilter)
    (hs : EmptyBInv s) : EmptyBInv (step s e).1 ∧ (step s e).2.all isUrlWrite = true := by
  obtain ⟨hp, hi, hn, herr, hr, ht⟩ := hs
  cases e with
  | runRestoration =>
    simp only [step, urlRestorationEffect]
    rw [hasNextPage_emptyB s hp]
    simp only [Bool.and_false, Bool.false_and, Bool.false_eq_true, if_false]
    split_ifs <;> exact ⟨⟨hp, hi, hn, herr, hr, ht⟩, rfl⟩
  | runUrlSync =>
    simp only [step, urlSyncEffect]
    split_ifs <;> exact ⟨⟨hp, hi, hn, herr, hr, ht⟩, rfl⟩
  | runScrollRestore =>
    simp only [step, scrollRestoreEffect, ht]
    exact ⟨⟨hp, hi, hn, herr, hr, ht⟩, rfl⟩
  | runInfiniteScroll li =>
    simp only [step, infiniteScrollEffect]
    split_ifs with h1
    · exact ⟨⟨hp, hi, hn, herr, hr, ht⟩, rfl⟩
    · rcases li with _ | idx
      · exact ⟨⟨hp, hi, hn, herr, hr, ht⟩, rfl⟩
      · simp only []
        rw [hasNextPage_emptyB s hp]
        simp only [Bool.and_false, Bool.false_and, Bool.false_eq_true, if_false]
        exact ⟨⟨hp, hi, hn, herr, hr, ht⟩, rfl⟩
  | fetchSuccess resp =>
    simp only [step, resolveFetch, hi, hn]
    simp only [Bool.false_eq_true, if_false]
    exact ⟨⟨hp, hi, hn, herr, hr, ht⟩, rfl⟩
  | fetchFailure =>
    simp only [step, rejectFetch, hi, hn]
    simp only [Bool.false_eq_true, if_false]
    exact ⟨⟨hp, hi, hn, herr, hr, ht⟩, rfl⟩
  | changeFilter => exact absurd rfl he

theorem emptyBInv_run (s : TableState) (evs : List Event)
    (he : Event.changeFilter ∉ evs) (hs : EmptyBInv s) :
    EmptyBInv (run s evs).1 ∧ (run s evs).2.all isUrlWrite = true := by
  induction evs generalizing s with
  | nil => exact ⟨hs, rfl⟩
  | cons e es ih =>
    have he1 : e ≠ Event.changeFilter := fun h => he (h ▸ List.mem_cons_self e es)
    have he2 : Event.changeFilter ∉ es := fun h => he (List.mem_cons_of_mem e h)
    obtain ⟨hstep, heff⟩ := emptyBInv_step s e he1 hs
    obtain ⟨hrun, heff2⟩ := ih (step s e).1 he2 hstep
    refine ⟨hrun, ?_⟩
    show (((step s e).2) ++ ((run (step s e).1 es).2)).all isUrlWrite = true
    rw [List.all_append, heff, heff2]
    rfl

/-! ### Claim theorems -/

/-- C1, code evaluated at the failing input. The claim says the restoration
started at mount with requestedPage > 1 always terminates, clearing its
active/target state within MAX_ATTEMPTS (10) page-load cycles. The code does
not: starting at urlPage = 10 against a source reporting total = 95, the
restoration effect records target index 285, issues three further page fetches,
and once the source is exhausted the state is stuck with isRestoring still
true and the target still set — every further effect run, scroll-restore run,
infinite-scroll run and fetch failure leaves the state unchanged and emits
nothing, so the active/target state is never cleared. -/
theorem c1_restoration_target_never_cleared :
    stuckA.isRestoring = true ∧
    stuckA.targetScrollIndex = some 285 ∧
    (run (mountState 10) traceA).2 = [Eff.fetchNext, Eff.fetchNext, Eff.fetchNext] ∧
    step stuckA Event.runRestoration = (stuckA, []) ∧
    step stuckA Event.runScrollRestore = (stuckA, []) ∧
    step stuckA Event.runUrlSync = (stuckA, []) ∧
    step stuckA (Event.runInfiniteScroll (some 94)) = (stuckA, []) ∧
    step stuckA Event.fetchFailure = (stuckA, []) := by
  decide

/-- C2, code evaluated at the scenario input. The claim says that with
total = 95, pageSize = 30 and requestedPage = 10 the target page is clamped to
4, the ideal index 105 is clamped to 94, and scrollToIndex(94) is invoked. The
code computes the unclamped target (10 - 1) * 30 + 15 = 285, does load exactly
the 4 existing pages (95 items), and never emits any scroll at all. -/
theorem c2_no_clamping_no_scroll :
    stuckA.targetScrollIndex = some 285 ∧
    stuckA.pages.length = 4 ∧
    (allProducts stuckA).length = 95 ∧
    (run (mountState 10) traceA).2 = [Eff.fetchNext, Eff.fetchNext, Eff.fetchNext] ∧
    ∀ i : Nat, Eff.scrollTo i ∉ (run (mountState 10) traceA).2 := by
  have heff : (run (mountState 10) traceA).2 = [Eff.fetchNext, Eff.fetchNext, Eff.fetchNext] := by
    decide
  refine ⟨by decide, by decide, by decide, heff, fun i => ?_⟩
  rw [heff]
  simp

/-- C3: reading the location descriptor returns the integer page search
parameter (page >= 1) and defaults to 1 when the parameter is absent; during
normal scrolling, whenever the loaded page count crosses a boundary (differs
from the URL page) and no restoration is active, the page sync effect writes
the loaded page count back to the URL. -/
theorem c3_url_page_read_write :
    (∀ params : List (String × String), getParam params "page" = none →
       pageFromSearchParams params = some 1) ∧
    (∀ (params : List (String × String)) (str : String) (n : Int),
       getParam params "page" = some str →
       str.data ≠ [] → str.data.all Char.isDigit = true →
       ((digitsToNat str.data : Nat) : Int) = n → 1 ≤ n →
       pageFromSearchParams params = some n) ∧
    (∀ st : TableState, st.isRestoring = false → st.pages.length ≠ 0 →
       st.pages.length ≠ st.urlPage →
       (urlSyncEffect st).2 = [Eff.setUrlPage st.pages.length] ∧
       (urlSyncEffect st).1.urlPage = st.pages.length) := by
  refine ⟨fun params h => ?_, fun params str n hget hne hdig hval _hge => ?_,
    fun st h1 h2 h3 => ?_⟩
  · simp [pageFromSearchParams, h]
  · have hstr : str ≠ "" := by
      intro he; subst he; exact hne rfl
    simp only [pageFromSearchParams, hget, if_neg hstr]
    rw [parseIntJS_all_digits str hne hdig, hval]
  · constructor <;> simp [urlSyncEffect, h1, h2, h3]

/-- Witness for C3 at concrete inputs: a page parameter holding the numeral 7
reads as 7, an absent parameter reads as 1, and a state with one loaded page
and URL page 5 writes page 1 back. -/
theorem c3_url_page_read_write_witness :
    pageFromSearchParams [("q", "phone"), ("page", "7")] = some 7 ∧
    pageFromSearchParams [("q", "phone")] = some 1 ∧
    (urlSyncEffect { s30 with urlPage := 5 }).2 = [Eff.setUrlPage 1] :=
  ⟨c3_url_page_read_write.2.1 [("q", "phone"), ("page", "7")] "7" 7
      (by decide) (by decide) (by decide) (by decide) (by decide),
   c3_url_page_read_write.1 [("q", "phone")] (by decide),
   (c3_url_page_read_write.2.2 { s30 with urlPage := 5 } rfl (by decide) (by decide)).1⟩

/-- C4: at most one page fetch is in flight at any instant. From any mount
state, every reachable state of the host loop has at most one pending fetch,
and both fetch-issuing paths (the URL restoration effect and the
threshold-driven infinite scroll effect) issue nothing while a next-page fetch
is already in flight. -/
theorem c4_single_fetch_in_flight :
    (∀ (p : Nat) (evs : List Event), pendingFetches (run (mountState p) evs).1 ≤ 1) ∧
    (∀ s : TableState, s.isFetchingNext = true →
       (urlRestorationEffect s).2 = [] ∧ ∀ li, (infiniteScrollEffect s li).2 = []) := by
  constructor
  · intro p evs
    exact fetchInv_pending _ (fetchInv_run _ evs (fun _ => ⟨rfl, rfl⟩))
  · exact guards_no_fetch_when_fetching

/-- Witness for C4 at concrete inputs: after the scenario A trace at most one
fetch is pending, and a state already fetching issues no restoration fetch. -/
theorem c4_single_fetch_in_flight_witness :
    pendingFetches (run (mountState 10) traceA).1 ≤ 1 ∧
    (urlRestorationEffect { s30 with isFetchingNext := true }).2 = [] :=
  ⟨c4_single_fetch_in_flight.1 10 traceA,
   (c4_single_fetch_in_flight.2 { s30 with isFetchingNext := true } rfl).1⟩

/-- C5: with pageSize 30, FETCH_THRESHOLD 5 and 30 loaded items (state s30),
the infinite scroll effect fetches exactly when the last rendered index is at
least 25 = 30 - 5: index 26 triggers a fetch, index 20 does not. -/
theorem c5_fetch_threshold :
    (infiniteScrollEffect s30 (some 26)).2 = [Eff.fetchNext] ∧
    (infiniteScrollEffect s30 (some 20)).2 = [] ∧
    ∀ idx : Nat, ((infiniteScrollEffect s30 (some idx)).2 = [Eff.fetchNext] ↔ 25 ≤ idx) := by
  refine ⟨by decide, by decide, fun idx => ?_⟩
  have hL : isLoading s30 = false := by decide
  have hN : hasNextPage s30 = true := by decide
  have hF : s30.isFetchingNext = false := by decide
  have hlen : (allProducts s30).length = 30 := by decide
  simp only [infiniteScrollEffect, hL, hN, hF, hlen, Bool.not_false, Bool.and_true,
    Bool.false_eq_true, if_false, FETCH_THRESHOLD]
  split_ifs with h
  · simp only [decide_eq_true_eq] at h
    constructor
    · intro _; omega
    · intro _; rfl
  · simp only [decide_eq_true_eq] at h
    constructor
    · intro habs; exact absurd habs (by simp)
    · intro hge; exfalso; apply h; push_cast; omega

/-- C6: with requestedPage 5 and a first response reporting total 0, the state
sEmptyB has hasNextPage false and clear restoration refs, and every further
event sequence that keeps the filter set fixed emits only URL writes — no
fetch and no scroll — while the restoration refs stay clear, so the
restoration terminates cleanly with no scroll and no restoration fetches. -/
theorem c6_empty_total_clean_termination :
    hasNextPage sEmptyB = false ∧
    sEmptyB.isRestoring = false ∧
    sEmptyB.targetScrollIndex = none ∧
    ∀ evs : List Event, Event.changeFilter ∉ evs →
      ((run sEmptyB evs).2.all isUrlWrite = true ∧
       (run sEmptyB evs).1.isRestoring = false ∧
       (run sEmptyB evs).1.targetScrollIndex = none) := by
  refine ⟨by decide, by decide, by decide, fun evs he => ?_⟩
  have hinv : EmptyBInv sEmptyB := by
    unfold EmptyBInv
    refine ⟨by decide, by decide, by decide, by decide, by decide, by decide⟩
  obtain ⟨⟨hp, hi, hn, herr, hr, ht⟩, heff⟩ := emptyBInv_run sEmptyB evs he hinv
  exact ⟨heff, hr, ht⟩

/-- Witness for C6 at a concrete event sequence: running the restoration,
scroll restore and URL sync effects after the empty response emits only URL
writes and leaves the restoration inactive. -/
theorem c6_empty_total_clean_termination_witness :
    (run sEmptyB [Event.runRestoration, Event.runScrollRestore, Event.runUrlSync]).2.all
        isUrlWrite = true ∧
    (run sEmptyB [Event.runRestoration, Event.runScrollRestore, Event.runUrlSync]).1.isRestoring
        = false :=
  have h := c6_empty_total_clean_termination.2.2.2
    [Event.runRestoration, Event.runScrollRestore, Event.runUrlSync] (by decide)
  ⟨h.1, h.2.1⟩

/-- Counterexample to C7 as stated. The claim says a filter-set change while a
restoration target is active immediately forces the stale target to Done, and
that data arriving for the new filter set never drives a scroll toward the old
target index. In the code, changing the filter away from scenario A's active
restoration leaves isRestoringFromURLRef true and the target 285 set, and once
the new filter set's pages (total 400) have loaded 300 items through normal
infinite scroll, the scroll restore effect fires scrollToIndex(285) — a scroll
toward the stale target driven entirely by the new filter set's data. -/
theorem c7_stale_target_counterexample :
    afterFilterA.isRestoring = true ∧
    afterFilterA.targetScrollIndex = some 285 ∧
    Eff.scrollTo 285 ∈ (run afterFilterA newFilterEvents).2 := by
  decide

/-- C7 amended: a filter-set change does not clear the active restoration
target — isRestoringFromURLRef and targetScrollIndexRef survive the change
unchanged (only the data is dropped and the URL page resets to 1, which stops
further restoration-driven fetches), so the stale target can later be
satisfied by the new filter set's data. -/
theorem c7_filter_change_keeps_target (s : TableState) (h : s.isRestoring = true) :
    (filterChange s).isRestoring = true ∧
    (filterChange s).targetScrollIndex = s.targetScrollIndex ∧
    (filterChange s).urlPage = 1 ∧
    (filterChange s).pages = [] :=
  ⟨h, rfl, rfl, rfl⟩

/-- Witness for the amended C7 at scenario A's stuck state. -/
theorem c7_filter_change_keeps_target_witness :
    (filterChange stuckA).isRestoring = true ∧
    (filterChange stuckA).urlPage = 1 :=
  ⟨(c7_filter_change_keeps_target stuckA (by decide)).1,
   (c7_filter_change_keeps_target stuckA (by decide)).2.2.1⟩

/-- Counterexample to C8 as stated. The claim says closing the overlay with a
positive snapshot restores the offset and then clears the snapshot. The code
restores exactly the saved offset 4000 but keeps the snapshot at 4000 — the
ref is never reset (cleared would be its initial value 0). -/
theorem c8_snapshot_not_cleared_counterexample :
    drawerEffect 0 "42" (some 4000) = (4000, none) ∧
    drawerEffect 4000 "" (some 1234) = (4000, some 4000) ∧
    (drawerEffect 4000 "" (some 1234)).1 ≠ 0 := by
  decide

/-- C8 amended: opening the overlay records the viewport's current offset;
closing it with a positive snapshot defers a write of exactly the saved offset
back to the viewport, while the snapshot itself is retained rather than
cleared (it is only overwritten on the next open); a zero snapshot makes the
restore a no-op. -/
theorem c8_drawer_scroll_memory (saved v : Nat) (pid : String) :
    (pid ≠ "" → drawerEffect saved pid (some v) = (v, none)) ∧
    (0 < saved → drawerEffect saved "" (some v) = (saved, some saved)) ∧
    drawerEffect 0 "" (some v) = (0, none) := by
  refine ⟨fun h => by simp [drawerEffect, h], fun h => by simp [drawerEffect, h],
    by simp [drawerEffect]⟩

/-- Witness for the amended C8 at scenario D's offset 4000. -/
theorem c8_drawer_scroll_memory_witness :
    drawerEffect 0 "42" (some 4000) = (4000, none) ∧
    drawerEffect 4000 "" (some 999) = (4000, some 4000) :=
  ⟨(c8_drawer_scroll_memory 0 4000 "42").1 (by decide),
   (c8_drawer_scroll_memory 4000 999 "").2.1 (by decide)⟩

/-- C9: a page fetch rejects exactly when the response is not ok, and a failed
next-page fetch leaves the loaded pages unchanged, clears the in-flight flag,
sets the error flag, and renders the ErrorState branch (which carries the
retry affordance onRetry = refetch), so a later manual retry can proceed. -/
theorem c9_fetch_failure_handling :
    (∀ r : HttpResponse, (∃ msg, fetchProductsResult r = Except.error msg) ↔ r.ok = false) ∧
    (∀ s : TableState, s.isInitialFetching = false → s.isFetchingNext = true →
      (rejectFetch s).pages = s.pages ∧
      (rejectFetch s).isFetchingNext = false ∧
      (rejectFetch s).isError = true ∧
      renderRoot (rejectFetch s) = RenderView.errorRetry) := by
  constructor
  · intro r
    constructor
    · rintro ⟨msg, hm⟩
      by_cases h : r.ok
      · simp [fetchProductsResult, h] at hm
      · simpa using h
    · intro h
      exact ⟨"Failed to fetch products", by simp [fetchProductsResult, h]⟩
  · intro s h1 h2
    simp only [rejectFetch, h1, h2]
    refine ⟨by simp, by simp, by simp, ?_⟩
    simp [renderRoot, isLoading]

/-- Witness for C9 at concrete inputs: a not-ok response rejects, and a failed
next-page fetch from s30 surfaces the error flag. -/
theorem c9_fetch_failure_handling_witness :
    (∃ msg, fetchProductsResult ⟨false, pageResp 0 0 0 0⟩ = Except.error msg) ∧
    (rejectFetch { s30 with isFetchingNext := true }).isError = true :=
  ⟨(c9_fetch_failure_handling.1 ⟨false, pageResp 0 0 0 0⟩).mpr rfl,
   (c9_fetch_failure_handling.2 { s30 with isFetchingNext := true } rfl rfl).2.2.1⟩

/-- C10: for every rendered virtual index (index < itemCount), the item count
is the product count plus exactly one trailing loader slot when more pages
remain and the product count otherwise; every index at or beyond the product
count renders the loader row, and every index below it renders the product at
that in-range position — the product list is never indexed at or beyond its
length. -/
theorem c10_render_bounds (s : TableState) (idx : Nat) (_hidx : idx < itemCount s) :
    (hasNextPage s = true → itemCount s = (allProducts s).length + 1) ∧
    (hasNextPage s = false → itemCount s = (allProducts s).length) ∧
    ((allProducts s).length ≤ idx → renderItem (allProducts s) idx = Row.loaderRow) ∧
    (∀ h : idx < (allProducts s).length,
       renderItem (allProducts s) idx = Row.productRow ((allProducts s).get ⟨idx, h⟩)) := by
  refine ⟨fun h => by simp [itemCount, h], fun h => by simp [itemCount, h],
          fun h => by simp [renderItem, h], fun h => ?_⟩
  simp only [renderItem]
  rw [dif_neg (Nat.not_le.mpr h)]

/-- Witness for C10 at s30: index 30 (the one virtual slot beyond the 30
products) renders the loader row. -/
theorem c10_render_bounds_witness :
    30 < itemCount s30 ∧ renderItem (allProducts s30) 30 = Row.loaderRow :=
  ⟨by decide, (c10_render_bounds s30 30 (by decide)).2.2.1 (by decide)⟩

end ProductBrowser
